import Mathlib

/-!
Shallow embedding of `bevy_test_utils` (src/src/lib.rs): three test-helper
operations layered on a Bevy-style `App` — `run_system_once`,
`run_systems_once`, and `collect_events` — together with the host-framework
primitives they are built from (`SystemStage`, `Events`, `ManualEventReader`,
deferred commands).  The host framework (Bevy) is not part of the repository;
its primitives are modelled here with the semantics the library's code relies
on: `Events::get_reader` returns a fresh reader whose cursor starts at zero,
reading through a reader never mutates the `Events` resource itself, and a
`SystemStage` applies all queued command buffers only after every system in
the stage has run.
-/

namespace BevyTestUtils

/-- Bevy's typed event-queue resource `Events<E>`: an append-only buffer of
events in arrival order.  `startEventCount` is the id of the oldest buffered
event and `eventCount` the id the next sent event will receive (ids grow by
one per `send`). -/
structure Events (ε : Type) where
  events : List ε
  startEventCount : Nat
  eventCount : Nat
  deriving Repr, DecidableEq

/-- An empty event queue, as produced by registering the event type. -/
def Events.empty {ε : Type} : Events ε := ⟨[], 0, 0⟩

/-- `Events::send`: append one event to the buffer and advance the count. -/
def Events.send {ε : Type} (ev : Events ε) (e : ε) : Events ε :=
  ⟨ev.events ++ [e], ev.startEventCount, ev.eventCount + 1⟩

/-- Bevy's `ManualEventReader`: a cursor over an event queue, recording the id
of the next event it has not yet observed. -/
structure ManualEventReader where
  lastEventCount : Nat
  deriving Repr, DecidableEq

/-- `Events::get_reader`: a fresh reader whose cursor starts at zero, so it
considers every event currently buffered as unread. -/
def Events.get_reader {ε : Type} (_ev : Events ε) : ManualEventReader := ⟨0⟩

/-- `ManualEventReader::iter` followed by cloning each event out: returns the
buffered events the cursor has not yet seen, in arrival order, together with
the advanced reader.  The `Events` value itself is only read, never changed. -/
def ManualEventReader.read {ε : Type} (r : ManualEventReader) (ev : Events ε) :
    List ε × ManualEventReader :=
  (ev.events.drop (r.lastEventCount - ev.startEventCount), ⟨ev.eventCount⟩)

/-- A deferred command, queued by a system during execution and applied to the
World only at a flush point.  `spawn` is the structural mutation used by the
spec's examples: deferred creation of an entity. -/
inductive Command where
  | spawn
  deriving Repr, DecidableEq

/-- The host framework's mutable `World`: the event resource for the one event
type under test (absent when never registered), a handful of plain resources
(`counter`, `res1`, `res2`), the entities currently alive, and the id the next
spawned entity will receive. -/
structure World (ε : Type) where
  eventsRes : Option (Events ε)
  counter : Nat
  res1 : Int
  res2 : Int
  entities : List Nat
  nextEntity : Nat
  deriving Repr, DecidableEq

/-- Apply one deferred command to the World (Bevy's `Command::write`). -/
def World.apply_command {ε : Type} (w : World ε) (c : Command) : World ε :=
  match c with
  | Command.spawn =>
      { w with entities := w.entities ++ [w.nextEntity],
               nextEntity := w.nextEntity + 1 }

/-- `world.send_event`: append an event to the `Events` resource when it is
present; a missing resource leaves the World unchanged. -/
def World.send_event {ε : Type} (w : World ε) (e : ε) : World ε :=
  { w with eventsRes := w.eventsRes.map (fun ev => ev.send e) }

/-- A system: a unit of logic that reads and writes the World directly and may
queue deferred commands, returned here as the mutated World paired with the
command buffer it filled during the run. -/
def System (ε : Type) : Type := World ε → World ε × List Command

/-- Bevy's `SystemStage`: an ordered collection of systems forming one
transient execution unit. -/
structure SystemStage (ε : Type) where
  systems : List (System ε)

/-- `SystemStage::single`: a stage holding exactly one system. -/
def SystemStage.single {ε : Type} (s : System ε) : SystemStage ε := ⟨[s]⟩

/-- `SystemStage::parallel`: an initially empty stage. -/
def SystemStage.parallel {ε : Type} : SystemStage ε := ⟨[]⟩

/-- `SystemStage::add_system`: append one system to the stage. -/
def SystemStage.add_system {ε : Type} (st : SystemStage ε) (s : System ε) :
    SystemStage ε := ⟨st.systems ++ [s]⟩

/-- `SystemStage::run`: execute every system of the stage exactly once over
the World, accumulating each system's command buffer, and only after all
systems have finished flush every accumulated command into the World.  No
command queued by one system of the stage is visible to another system of the
same stage while the stage is running. -/
def SystemStage.run {ε : Type} (st : SystemStage ε) (w : World ε) : World ε :=
  let r := st.systems.foldl
    (fun acc s =>
      let p := s acc.1
      (p.1, acc.2 ++ p.2))
    (w, ([] : List Command))
  r.2.foldl World.apply_command r.1

/-- The Bevy `App` the extension trait is implemented on: its `World` plus its
persistent schedule (abstracted as the list of ids of the systems registered
for every future tick — none of the three helpers ever touches it). -/
structure App (ε : Type) where
  world : World ε
  schedule : List Nat
  deriving Repr, DecidableEq

/-- `app.send_event`: deliver one event into the App's World. -/
def App.send_event {ε : Type} (app : App ε) (e : ε) : App ε :=
  { app with world := app.world.send_event e }

/-- Send a whole list of events in order. -/
def App.send_all {ε : Type} (app : App ε) (es : List ε) : App ε :=
  es.foldl App.send_event app

/-- `TestApp::run_system_once`: build the transient single-system stage and
run it once, immediately, against the App's World. -/
def run_system_once {ε : Type} (app : App ε) (s : System ε) : App ε :=
  { app with world := (SystemStage.single s).run app.world }

/-- `TestApp::run_systems_once`: build a transient parallel stage holding the
listed systems and run it once against the App's World; queued commands are
not executed until every system in the list has been executed. -/
def run_systems_once {ε : Type} (app : App ε) (systems : List (System ε)) :
    App ε :=
  { app with world := (systems.foldl SystemStage.add_system SystemStage.parallel).run app.world }

/-- `TestApp::collect_events`: look up the `Events<E>` resource (a missing
resource is the host-framework panic, modelled as `none`), create a fresh
reader, eagerly read every event visible to it into an owned list, and return
that list together with the App as it stands after the call. -/
def collect_events {ε : Type} (app : App ε) : Option (List ε × App ε) :=
  match app.world.eventsRes with
  | none => none
  | some ev =>
      let p := (ev.get_reader).read ev
      some (p.1, app)

/-- Two successive `collect_events` calls on the same App, threading the App
returned by the first call into the second; yields both collected lists. -/
def collect_events_twice {ε : Type} (app : App ε) :
    Option (List ε × List ε) :=
  match collect_events app with
  | none => none
  | some (l1, app1) =>
      match collect_events app1 with
      | none => none
      | some (l2, _) => some (l1, l2)

/-- A concrete World whose event resource was registered and holds the given
events (all sent since registration), used for concrete evaluations. -/
def mkWorld (es : List Nat) : World Nat :=
  { eventsRes := some ⟨es, 0, es.length⟩
    counter := 0
    res1 := 0
    res2 := 0
    entities := []
    nextEntity := 0 }

/-- A concrete App over `mkWorld` with an arbitrary persistent schedule. -/
def mkApp (es : List Nat) : App Nat := ⟨mkWorld es, [7, 8]⟩

end BevyTestUtils

namespace BevyTestUtils

/-- Sending a list of events onto a present event resource appends them, in
order, to the buffered events and advances the count by the list's length. -/
theorem send_all_eventsRes {ε : Type} :
    ∀ (es : List ε) (app : App ε) (ev : Events ε),
      app.world.eventsRes = some ev →
      (app.send_all es).world.eventsRes =
        some ⟨ev.events ++ es, ev.startEventCount, ev.eventCount + es.length⟩ := by
  intro es
  induction es with
  | nil =>
      intro app ev h
      simpa [App.send_all] using h
  | cons e es ih =>
      intro app ev h
      have h1 : (app.send_event e).world.eventsRes = some (ev.send e) := by
        simp [App.send_event, World.send_event, h]
      have h2 := ih (app.send_event e) (ev.send e) h1
      have hstep : (app.send_all (e :: es)) = (app.send_event e).send_all es := by
        simp [App.send_all]
      rw [hstep, h2]
      simp [Events.send, List.append_assoc]
      omega

/-- C1: for every sequence of events sent into an App whose event resource is
registered (and empty), `collect_events` returns exactly that sequence — same
length, same order, same values — paired with the App after the call. -/
theorem collect_events_returns_inserted {ε : Type}
    (es : List ε) (app : App ε)
    (h : app.world.eventsRes = some Events.empty) :
    collect_events (app.send_all es) = some (es, app.send_all es) := by
  have hres := send_all_eventsRes es app Events.empty h
  simp [Events.empty] at hres
  simp [collect_events, hres, Events.get_reader, ManualEventReader.read]

/-- Witness for C1 at the concrete App `mkApp []` and events `[3, 1, 2]`. -/
theorem collect_events_returns_inserted_witness :
    collect_events ((mkApp []).send_all [3, 1, 2]) =
      some ([3, 1, 2], (mkApp []).send_all [3, 1, 2]) :=
  collect_events_returns_inserted [3, 1, 2] (mkApp []) rfl

/-- C2 counter-evidence: on an App holding the single buffered event `0`, two
successive `collect_events` calls both return the full sequence `[0]` — the
second call does NOT return an empty sequence, because each call creates a
fresh reader starting at zero and never mutates the `Events` resource. -/
theorem collect_events_twice_full_again :
    collect_events_twice (mkApp [0]) = some ([0], [0]) := by
  decide

/-- C3: running a system that increments the counter resource and queues one
deferred spawn command via `run_system_once` increments the counter by exactly
one, and the queued command is flushed before the call returns: the spawned
entity is present in the World afterwards. -/
theorem run_system_once_counter_increment {ε : Type}
    (app : App ε) (s : System ε)
    (hc : ∀ w, ((s w).1).counter = w.counter + 1)
    (hcmd : ∀ w, (s w).2 = [Command.spawn])
    (hent : ∀ w, ((s w).1).entities = w.entities ∧
                 ((s w).1).nextEntity = w.nextEntity) :
    (run_system_once app s).world.counter = app.world.counter + 1 ∧
    (run_system_once app s).world.entities =
      app.world.entities ++ [app.world.nextEntity] := by
  obtain ⟨he, hn⟩ := hent app.world
  simp [run_system_once, SystemStage.single, SystemStage.run,
        hcmd app.world, World.apply_command, hc app.world, he, hn]

/-- A concrete system that increments the counter resource and queues one
deferred entity-spawn command. -/
def inc_spawn_system : System Nat :=
  fun w => ({ w with counter := w.counter + 1 }, [Command.spawn])

/-- Witness for C3 at the concrete App `mkApp []` and `inc_spawn_system`. -/
theorem run_system_once_counter_increment_witness :
    (run_system_once (mkApp []) inc_spawn_system).world.counter =
      (mkApp []).world.counter + 1 ∧
    (run_system_once (mkApp []) inc_spawn_system).world.entities =
      (mkApp []).world.entities ++ [(mkApp []).world.nextEntity] :=
  run_system_once_counter_increment (mkApp []) inc_spawn_system
    (fun _ => rfl) (fun _ => rfl) (fun _ => ⟨rfl, rfl⟩)

/-- C4: in `run_systems_once app [s1, s2]` where `s1` queues a deferred entity
spawn and `s2` records into the counter resource how many entities it
observes, `s2` does not observe the entity spawned by `s1` (the counter ends
at the old entity count), yet after the batch returns the entity exists; a
subsequent `run_system_once` of the observer then does observe it. -/
theorem run_systems_once_no_mid_batch_visibility {ε : Type}
    (app : App ε) (s1 s2 : System ε)
    (h1 : ∀ w, s1 w = (w, [Command.spawn]))
    (h2 : ∀ w, s2 w = ({ w with counter := w.entities.length }, [])) :
    (run_systems_once app [s1, s2]).world.counter =
      app.world.entities.length ∧
    (run_systems_once app [s1, s2]).world.entities.length =
      app.world.entities.length + 1 ∧
    (run_system_once (run_systems_once app [s1, s2]) s2).world.counter =
      app.world.entities.length + 1 := by
  simp [run_systems_once, run_system_once, SystemStage.parallel,
        SystemStage.add_system, SystemStage.single, SystemStage.run,
        h1, h2, World.apply_command]

/-- A concrete system that only queues one deferred entity-spawn command. -/
def spawn_only_system : System Nat := fun w => (w, [Command.spawn])

/-- A concrete observer system recording the number of entities it can see
into the counter resource, queueing no command. -/
def observe_entities_system : System Nat :=
  fun w => ({ w with counter := w.entities.length }, [])

/-- Witness for C4 at the concrete App `mkApp []` with the spawner and the
observer. -/
theorem run_systems_once_no_mid_batch_visibility_witness :
    (run_systems_once (mkApp []) [spawn_only_system, observe_entities_system]).world.counter =
      (mkApp []).world.entities.length ∧
    (run_systems_once (mkApp []) [spawn_only_system, observe_entities_system]).world.entities.length =
      (mkApp []).world.entities.length + 1 ∧
    (run_system_once (run_systems_once (mkApp []) [spawn_only_system, observe_entities_system])
        observe_entities_system).world.counter =
      (mkApp []).world.entities.length + 1 :=
  run_systems_once_no_mid_batch_visibility (mkApp [])
    spawn_only_system observe_entities_system (fun _ => rfl) (fun _ => rfl)

/-- C5: calling `collect_events` on an App whose World has no `Events`
resource fails (the host-framework missing-resource panic, modelled as
`none`) instead of returning an empty sequence. -/
theorem collect_events_missing_resource {ε : Type}
    (app : App ε) (h : app.world.eventsRes = none) :
    collect_events app = none := by
  simp [collect_events, h]

/-- A concrete App whose World never had the event resource registered. -/
def appNoEvents : App Nat :=
  ⟨{ eventsRes := none, counter := 0, res1 := 0, res2 := 0,
     entities := [], nextEntity := 0 }, []⟩

/-- Witness for C5 at the concrete App `appNoEvents`. -/
theorem collect_events_missing_resource_witness :
    collect_events appNoEvents = none :=
  collect_events_missing_resource appNoEvents rfl

/-- C6: in `run_systems_once` with two systems writing disjoint resources
(`res1` and `res2`), each system runs exactly once (the shared counter each
one increments ends exactly two higher) and both writes are present in the
World after the call, in either execution order. -/
theorem run_systems_once_each_once_disjoint_writes {ε : Type}
    (app : App ε) (s1 s2 : System ε) (a b : Int)
    (h1 : ∀ w, s1 w = ({ w with res1 := a, counter := w.counter + 1 }, []))
    (h2 : ∀ w, s2 w = ({ w with res2 := b, counter := w.counter + 1 }, [])) :
    (run_systems_once app [s1, s2]).world.res1 = a ∧
    (run_systems_once app [s1, s2]).world.res2 = b ∧
    (run_systems_once app [s1, s2]).world.counter = app.world.counter + 2 ∧
    (run_systems_once app [s2, s1]).world.res1 = a ∧
    (run_systems_once app [s2, s1]).world.res2 = b ∧
    (run_systems_once app [s2, s1]).world.counter = app.world.counter + 2 := by
  simp [run_systems_once, SystemStage.parallel, SystemStage.add_system,
        SystemStage.run, h1, h2]

/-- A concrete system writing `5` into the resource `res1` and bumping the
shared counter. -/
def write_res1_system : System Nat :=
  fun w => ({ w with res1 := 5, counter := w.counter + 1 }, [])

/-- A concrete system writing `9` into the resource `res2` and bumping the
shared counter. -/
def write_res2_system : System Nat :=
  fun w => ({ w with res2 := 9, counter := w.counter + 1 }, [])

/-- Witness for C6 at the concrete App `mkApp []` with the two writers. -/
theorem run_systems_once_each_once_disjoint_writes_witness :
    (run_systems_once (mkApp []) [write_res1_system, write_res2_system]).world.res1 = 5 ∧
    (run_systems_once (mkApp []) [write_res1_system, write_res2_system]).world.res2 = 9 ∧
    (run_systems_once (mkApp []) [write_res1_system, write_res2_system]).world.counter =
      (mkApp []).world.counter + 2 ∧
    (run_systems_once (mkApp []) [write_res2_system, write_res1_system]).world.res1 = 5 ∧
    (run_systems_once (mkApp []) [write_res2_system, write_res1_system]).world.res2 = 9 ∧
    (run_systems_once (mkApp []) [write_res2_system, write_res1_system]).world.counter =
      (mkApp []).world.counter + 2 :=
  run_systems_once_each_once_disjoint_writes (mkApp [])
    write_res1_system write_res2_system 5 9 (fun _ => rfl) (fun _ => rfl)

/-- C7: on an App whose event resource is present, `collect_events` returns
the entire buffered sequence as one concrete, fully materialized owned list,
and the App it hands back is the unchanged input App — so iterating, mutating
or dropping the returned list cannot mutate the World. -/
theorem collect_events_materialized_owned {ε : Type}
    (app : App ε) (ev : Events ε)
    (h : app.world.eventsRes = some ev) :
    collect_events app = some (ev.events, app) := by
  simp [collect_events, h, Events.get_reader, ManualEventReader.read]

/-- Witness for C7 at the concrete App `mkApp [1, 2]`. -/
theorem collect_events_materialized_owned_witness :
    collect_events (mkApp [1, 2]) = some ([1, 2], mkApp [1, 2]) :=
  collect_events_materialized_owned (mkApp [1, 2]) ⟨[1, 2], 0, 2⟩ rfl

/-- C8: neither `run_system_once` nor `run_systems_once` touches the App's
persistent schedule: the transient stage is built, run, and discarded, and
the systems are never registered for any later frame. -/
theorem run_once_schedule_unchanged {ε : Type}
    (app : App ε) (s : System ε) (systems : List (System ε)) :
    (run_system_once app s).schedule = app.schedule ∧
    (run_systems_once app systems).schedule = app.schedule := by
  simp [run_system_once, run_systems_once]

/-- C9: whenever `collect_events` succeeds, the App it returns is exactly the
input App: the fresh reader is local to the call and the buffered events are
not removed from the `Events` resource. -/
theorem collect_events_world_unchanged {ε : Type}
    (app : App ε) (l : List ε) (app' : App ε)
    (h : collect_events app = some (l, app')) : app' = app := by
  cases hres : app.world.eventsRes with
  | none => simp [collect_events, hres] at h
  | some ev =>
      simp [collect_events, hres] at h
      exact h.2.symm

/-- Witness for C9 at the concrete App `mkApp [5]`, whose `collect_events`
call succeeds with the list `[5]` and hands back the same App. -/
theorem collect_events_world_unchanged_witness :
    collect_events (mkApp [5]) = some ([5], mkApp [5]) ∧
    (mkApp [5] : App Nat) = mkApp [5] :=
  ⟨rfl, collect_events_world_unchanged (mkApp [5]) [5] (mkApp [5]) rfl⟩

/-- C10: `run_systems_once` with an empty list of systems returns the App
unchanged: the stage holds no system, so nothing runs and the accumulated
command buffer flushed at the end is empty. -/
theorem run_systems_once_empty {ε : Type} (app : App ε) :
    run_systems_once app ([] : List (System ε)) = app := rfl

end BevyTestUtils
